import Mathlib

/-!
Shallow embedding of the skrunk-feeds synchronizer (src/main.py) and proofs
about its feed-chain resolution algorithm.

The embedding models the pure control flow of `fetch_next_document` and
`get_feeds`. External collaborators (the skrunk backing store, the Reddit
client, the urllib hostname parser and the datetime formatter) are passed in
as explicit environment values, exactly as the source treats them as opaque
services. The observable behaviour of one synchronization cycle for one feed
is a trace: the ordered backing-store calls issued, the external fetches
performed, the log lines produced, and whether the function returned normally
or raised an exception that escapes to the outer loop.
-/

namespace SkrunkFeeds

/-- Feed record, translated from the `Feed` TypedDict in src/main.py.
Timestamps are abstracted as natural numbers. -/
structure Feed where
  id : String
  name : String
  creator : String
  created : Nat
  inactive : Bool
  kind : String
  url : String
  notify : Bool
  origin : Option String
deriving Repr, DecidableEq

/-- Stored document record, translated from the `Document` TypedDict in
src/main.py. The TypedDict declares no `url` key, but the code reads
`doc["url"]`; since Python dictionaries are dynamic, the record is modelled
with an extra optional `url` entry, and the dictionary access is partial:
it raises `KeyError` when the entry is absent. -/
structure Document where
  id : String
  feed : String
  author : Option String
  posted : Option Nat
  body : String
  body_html : String
  created : Nat
  updated : Option Nat
  url : Option String
deriving Repr, DecidableEq

/-- The payload dictionary built at lines 203-223 of src/main.py and passed
to `createFeedDocument`. -/
structure NewDocument where
  feed : String
  author : Option String
  posted : Option String
  body : String
  title : Option String
  url : String
deriving Repr, DecidableEq

/-- A Reddit submission as used by the code: `post.title`, `post.selftext`,
`post.author.name` and `post.created_utc`. -/
structure Post where
  title : String
  selftext : String
  author_name : String
  created_utc : Nat
deriving Repr, DecidableEq

/-- A backing-store result: every result carries a declared `__typename`
tag, and results of other types carry a `message`. -/
structure StoreResult where
  typename : String
  message : String
deriving Repr, DecidableEq

/-- One backing-store API call, with its arguments. -/
inductive Call where
  | getFeedDocuments (feed : String) (start count : Nat)
      (sortFields : List String) (descending : Bool)
  | updateFeedDocument (id : String) (body : String)
  | createFeedDocument (document : NewDocument)
  | sendNotification (username : String) (title : String)
      (body : String) (category : String)
deriving Repr, DecidableEq

/-- True for the three mutating backing-store calls. -/
def Call.isWrite : Call → Bool
  | .updateFeedDocument .. => true
  | .createFeedDocument .. => true
  | .sendNotification .. => true
  | _ => false

/-- True exactly for `createFeedDocument` calls. -/
def Call.isCreate : Call → Bool
  | .createFeedDocument .. => true
  | _ => false

/-- True exactly for `updateFeedDocument` calls. -/
def Call.isUpdate : Call → Bool
  | .updateFeedDocument .. => true
  | _ => false

/-- True exactly for `sendNotification` calls. -/
def Call.isNotify : Call → Bool
  | .sendNotification .. => true
  | _ => false

/-- How `fetch_next_document` ends: a normal return, or an exception that
escapes to the broad catch in `main`. -/
inductive Outcome where
  | returned
  | raised (msg : String)
deriving Repr, DecidableEq

/-- The observable behaviour of one `fetch_next_document` invocation. -/
structure Trace where
  storeCalls : List Call
  fetches : List String
  logs : List String
  outcome : Outcome
deriving Repr, DecidableEq

/-- The environment of one `fetch_next_document` invocation: the responses
of the external collaborators. `hostnameOf` models `urlparse(url).hostname`
from urllib; `formatUtc` models
`datetime.fromtimestamp(ts, timezone.utc).strftime("%Y-%m-%d %H:%M:%S")`;
`fetchPost` models `API.reddit.submission(url=...)` together with the
attribute reads on the returned post (a failure anywhere there raises);
the four `Except` fields are the responses of the backing-store session to
the at-most-one call of each kind the function makes. -/
structure Env where
  hostnameOf : String → Option String
  getFeedDocuments : Except String (List Document)
  fetchPost : String → Except String Post
  createResult : Except String StoreResult
  updateResult : Except String StoreResult
  notifyResult : Except String StoreResult
  formatUtc : Nat → String

/-! ### Successor-marker matching

Model of `re.search(r"\[[Nn]ext[^\w\]]*\]\(([^)]*)\)", body)` at line 193.
The pattern is deterministic: after the literal `[`, one of `N` or `n`, the
literal `ext`, a maximal run of characters that are neither word characters
nor `]` (the character class excludes `]`, so backtracking can never help),
then `]`, `(`, a maximal run of non-`)` characters (captured), then `)`.
`re.search` returns the match at the leftmost possible start position.
Word characters are modelled as ASCII alphanumerics and underscore, which
agrees with the regex class on ASCII text. -/

/-- Model of the regex class `\w` restricted to ASCII. -/
def isWordChar (c : Char) : Bool := c.isAlphanum || c = '_'

/-- Attempt to match the successor-marker pattern anchored at the start of
the character list; on success return the captured group 1. -/
def matchMarker : List Char → Option (List Char)
  | '[' :: c1 :: 'e' :: 'x' :: 't' :: rest =>
    if c1 = 'N' || c1 = 'n' then
      match (rest.span fun c => !isWordChar c && c != ']') with
      | (_, ']' :: '(' :: rest2) =>
        match (rest2.span fun c => c != ')') with
        | (target, ')' :: _) => some target
        | _ => none
      | _ => none
    else none
  | _ => none

/-- Leftmost search for the successor-marker pattern, as `re.search` does:
try every start position from the left. -/
def searchMarker : List Char → Option (List Char)
  | [] => none
  | c :: cs =>
    match matchMarker (c :: cs) with
    | some target => some target
    | none => searchMarker cs

/-- The whole marker search on a document body: the captured link target of
the leftmost match, if any. -/
def searchNextMarker (body : String) : Option String :=
  match searchMarker body.data with
  | some target => some (String.mk target)
  | none => none

/-! ### Origin resolution (lines 150-165) -/

/-- Model of the Python expression `hostname.split(".")`: split a character
list at every dot; the result is never empty. -/
def splitDots : List Char → List String
  | [] => [""]
  | c :: rest =>
    let r := splitDots rest
    if c = '.' then "" :: r
    else
      match r with
      | [] => [String.mk [c]]
      | g :: gs => String.mk (c :: g.data) :: gs

/-- Model of the Python slice `addr[-2::]`: the last two elements, or the
whole list when it is shorter. -/
def pySliceLastTwo (l : List String) : List String := l.drop (l.length - 2)

/-- Result of the origin-resolution block at lines 150-165. -/
inductive OriginResult where
  | invalidUrl
  | invalidHostname
  | resolved (origin : String)
  | unresolved (hostname : String)
deriving Repr, DecidableEq

/-- Origin resolution, translated from lines 150-165 of src/main.py: no
parsable hostname is an error; then `addr = hostname.split(".")` and the
feed origin is `reddit` exactly when `addr[-2::] == ["reddit", "com"]`. -/
def resolveOrigin (hostname : Option String) : OriginResult :=
  match hostname with
  | none => .invalidUrl
  | some h =>
    let addr := splitDots h.data
    if addr.length < 1 then .invalidHostname
    else if pySliceLastTwo addr = ["reddit", "com"] then .resolved "reddit"
    else .unresolved h

/-! ### Chain navigation (lines 167-199) -/

/-- Result of the navigation block: either the cycle for this feed was
aborted by a backing-store error (log and return), or a dictionary access
raised, or navigation produced a fetch target together with the remembered
body and id of the existing document. -/
inductive NavOutcome where
  | abort (calls : List Call) (logs : List String)
  | raise (calls : List Call) (msg : String)
  | go (calls : List Call) (next_url : String)
      (document_body : Option String) (document_id : Option String)
deriving Repr, DecidableEq

/-- The `getFeedDocuments` call issued at lines 175-183. -/
def getDocumentsCall (feed : Feed) : Call :=
  Call.getFeedDocuments feed.id 0 1 ["created"] true

/-- Chain navigation, translated from lines 167-199 of src/main.py.
Defaults: next url is the configured feed url, no remembered body or id.
For a `markdown_recursive` feed, request the most recent document; on a
session error log and stop. When a document exists, read its `url` entry
(this raises `KeyError` when absent, see `Document`), then search its body
for the successor marker: a match overrides the next url and keeps the
create defaults, otherwise remember the body and id for the update path. -/
def navigate (feed : Feed) (env : Env) : NavOutcome :=
  if feed.kind = "markdown_recursive" then
    match env.getFeedDocuments with
    | .error e => .abort [getDocumentsCall feed] ["SKRUNK: " ++ e]
    | .ok documents =>
      match documents with
      | [] => .go [getDocumentsCall feed] feed.url none none
      | doc :: _ =>
        match doc.url with
        | none => .raise [getDocumentsCall feed] "KeyError: url"
        | some docUrl =>
          match searchNextMarker doc.body with
          | some target => .go [getDocumentsCall feed] target none none
          | none =>
            .go [getDocumentsCall feed] docUrl (some doc.body) (some doc.id)
  else .go [] feed.url none none

/-! ### Commit (lines 201-259) -/

/-- The body text of the notification sent at lines 245-250. -/
def notificationText : String := "A new post has been added to your feed."

/-- The final `__typename` check at lines 255-259, shared by the update and
the create path: a result whose declared type is not `FeedDocument` is
logged as a store error, otherwise a success line is logged. -/
def finishCommit (result : StoreResult) (feed : Feed) (wasUpdate : Bool)
    (calls : List Call) (fetchList : List String) (logs : List String) :
    Trace :=
  if result.typename ≠ "FeedDocument" then
    { storeCalls := calls, fetches := fetchList,
      logs := logs ++ ["SKRUNK: " ++ result.message], outcome := .returned }
  else
    { storeCalls := calls, fetches := fetchList,
      logs := logs ++
        [(if wasUpdate then "Updated" else "Fetched new") ++
          " document for feed " ++ feed.id],
      outcome := .returned }

/-- The create branch at lines 240-250: call `createFeedDocument`; if that
raises a session error, log and return; otherwise, when the feed has
notifications enabled, call `sendNotification` (a session error there is
caught by the same handler); finally run the `__typename` check on the
creation result. -/
def createNew (feed : Feed) (env : Env) (document : NewDocument)
    (calls : List Call) (fetchList : List String) (logs : List String) :
    Trace :=
  let crCall := Call.createFeedDocument document
  match env.createResult with
  | .error e =>
    { storeCalls := calls ++ [crCall], fetches := fetchList,
      logs := logs ++ ["SKRUNK: " ++ e], outcome := .returned }
  | .ok result =>
    if feed.notify then
      let ntCall := Call.sendNotification feed.creator feed.name
        notificationText "feed"
      match env.notifyResult with
      | .error e =>
        { storeCalls := calls ++ [crCall, ntCall], fetches := fetchList,
          logs := logs ++ ["SKRUNK: " ++ e], outcome := .returned }
      | .ok _ =>
        finishCommit result feed false (calls ++ [crCall, ntCall])
          fetchList logs
    else finishCommit result feed false (calls ++ [crCall]) fetchList logs

/-- The fetch and commit stage, translated from lines 201-259 of
src/main.py. The resolved origin is `reddit` on every reachable path, so
the Reddit client is asked for the post at `next_url`; a client failure
raises past the function. The fetched fields overwrite the placeholder
payload. Then: a truthy `document_id` (present and non-empty, Python
truthiness) selects the update path, which is a no-op when the remembered
body equals the fetched body and otherwise updates the document body;
a falsy `document_id` selects the create path. -/
def commit (feed : Feed) (env : Env) (origin : String) (next_url : String)
    (document_body : Option String) (document_id : Option String)
    (calls : List Call) : Trace :=
  if origin = "reddit" then
    let logs := ["Reaching out to Reddit API... "]
    match env.fetchPost next_url with
    | .error e =>
      { storeCalls := calls, fetches := [next_url], logs := logs,
        outcome := .raised e }
    | .ok post =>
      let logs := logs ++ ["Fetched post data."]
      let document : NewDocument :=
        { feed := feed.id
          author := some post.author_name
          posted := some (env.formatUtc post.created_utc)
          body := post.selftext
          title := some post.title
          url := next_url }
      match document_id with
      | some docId =>
        if docId = "" then createNew feed env document calls [next_url] logs
        else if document_body = some document.body then
          { storeCalls := calls, fetches := [next_url], logs := logs,
            outcome := .returned }
        else
          let upCall := Call.updateFeedDocument docId document.body
          match env.updateResult with
          | .error e =>
            { storeCalls := calls ++ [upCall], fetches := [next_url],
              logs := logs ++ ["SKRUNK: " ++ e], outcome := .returned }
          | .ok result =>
            finishCommit result feed true (calls ++ [upCall]) [next_url] logs
      | none => createNew feed env document calls [next_url] logs
  else
    { storeCalls := calls, fetches := [],
      logs := ["ERROR: Cannot determine origin of feed " ++ feed.id],
      outcome := .returned }

/-! ### fetch_next_document (lines 128-259) -/

/-- One whole synchronization step for one feed, translated from
`fetch_next_document` in src/main.py: validate the feed kind, resolve the
origin from the hostname of the feed url, navigate the chain, then fetch
and commit. -/
def fetch_next_document (feed : Feed) (env : Env) : Trace :=
  if feed.kind ∈ ["markdown_recursive"] then
    match resolveOrigin (env.hostnameOf feed.url) with
    | .invalidUrl =>
      { storeCalls := [], fetches := [],
        logs := ["ERROR: Feed " ++ feed.id ++ " has invalid URL \"" ++
          feed.url ++ "\""],
        outcome := .returned }
    | .invalidHostname =>
      { storeCalls := [], fetches := [],
        logs := ["ERROR: Feed " ++ feed.id ++ " has invalid hostname"],
        outcome := .returned }
    | .unresolved h =>
      { storeCalls := [], fetches := [],
        logs := ["ERROR: Could not determine origin for feed " ++ feed.id ++
          " hostname \"" ++ h ++ "\""],
        outcome := .returned }
    | .resolved origin =>
      match navigate feed env with
      | .abort calls logs =>
        { storeCalls := calls, fetches := [], logs := logs,
          outcome := .returned }
      | .raise calls msg =>
        { storeCalls := calls, fetches := [], logs := [],
          outcome := .raised msg }
      | .go calls next_url document_body document_id =>
        commit feed env origin next_url document_body document_id calls
  else
    { storeCalls := [], fetches := [],
      logs := ["ERROR: Invalid feed kind \"" ++ feed.kind ++ "\" in feed " ++
        feed.id ++ "!"],
      outcome := .returned }

/-! ### Feed enumeration (get_feeds, lines 96-126) -/

/-- The backing store as seen by `get_feeds`: the response to `countFeeds`
and the response to `getFeeds` for each start index and batch size. -/
structure FeedStore where
  countFeeds : Except String Nat
  getFeeds : Nat → Nat → Except String (List Feed)

/-- The batch size used by `get_feeds`. -/
def feed_batch_size : Nat := 20

/-- Model of Python `range(0, stop, step)` for positive `step`. -/
def pyRange0 (stop step : Nat) : List Nat :=
  List.range' 0 ((stop + step - 1) / step) step

/-- The loop body of `get_feeds` over the remaining batch start indices:
for each start, request a batch of `feed_batch_size` feeds; on success
yield its feeds whose `inactive` flag is false, on a session error log and
continue with the next batch. Returns the requests made (start index and
count) and the feeds yielded, in order. -/
def get_feeds_loop (api : FeedStore) : List Nat → List (Nat × Nat) × List Feed
  | [] => ([], [])
  | i :: rest =>
    let tail := get_feeds_loop api rest
    match api.getFeeds i feed_batch_size with
    | .ok feed_list =>
      ((i, feed_batch_size) :: tail.1,
        feed_list.filter (fun f => !f.inactive) ++ tail.2)
    | .error _ => ((i, feed_batch_size) :: tail.1, tail.2)

/-- Feed enumeration, translated from `get_feeds` in src/main.py: when the
count query fails the total is treated as zero; then the batches at starts
`range(0, total, feed_batch_size)` are requested in order. -/
def get_feeds (api : FeedStore) : List (Nat × Nat) × List Feed :=
  let total :=
    match api.countFeeds with
    | .ok n => n
    | .error _ => 0
  get_feeds_loop api (pyRange0 total feed_batch_size)

/-! ### Helper lemmas -/

/-- The only origin the resolver ever produces is `reddit`. -/
lemma resolveOrigin_resolved {x : Option String} {o : String}
    (h : resolveOrigin x = .resolved o) : o = "reddit" := by
  cases x with
  | none => simp [resolveOrigin] at h
  | some s =>
    simp only [resolveOrigin] at h
    split at h
    · simp at h
    · split at h
      · injection h with h1
        exact h1.symm
      · simp at h

/-- Splitting a hostname at dots never yields the empty list, so the
`len(addr) < 1` guard at line 156 can never fire. -/
lemma splitDots_ne_nil (cs : List Char) : splitDots cs ≠ [] := by
  cases cs with
  | nil => simp [splitDots]
  | cons c rest =>
    simp only [splitDots]
    split
    · simp
    · cases h : splitDots rest <;> simp

/-- The store calls of the create branch: the prior calls, the creation
call, and the notification call exactly when the creation call succeeded
and the feed has notifications enabled. -/
lemma createNew_storeCalls (feed : Feed) (env : Env) (document : NewDocument)
    (calls : List Call) (fetchList logs : List String) :
    (createNew feed env document calls fetchList logs).storeCalls =
      calls ++ [Call.createFeedDocument document] ++
        (if env.createResult.isOk = true ∧ feed.notify = true then
          [Call.sendNotification feed.creator feed.name notificationText
            "feed"]
        else []) := by
  unfold createNew finishCommit
  cases hc : env.createResult <;>
    cases hn : feed.notify <;>
    cases hr : env.notifyResult <;>
    simp [Except.isOk, Except.toBool] <;>
    split <;> simp_all

/-- The create branch always returns normally. -/
lemma createNew_outcome (feed : Feed) (env : Env) (document : NewDocument)
    (calls : List Call) (fetchList logs : List String) :
    (createNew feed env document calls fetchList logs).outcome =
      Outcome.returned := by
  unfold createNew finishCommit
  cases hc : env.createResult <;>
    cases hn : feed.notify <;>
    cases hr : env.notifyResult <;>
    simp [Except.isOk, Except.toBool] <;>
    split <;> simp_all

/-- The create branch performs no further external fetches. -/
lemma createNew_fetches (feed : Feed) (env : Env) (document : NewDocument)
    (calls : List Call) (fetchList logs : List String) :
    (createNew feed env document calls fetchList logs).fetches =
      fetchList := by
  unfold createNew finishCommit
  cases hc : env.createResult <;>
    cases hn : feed.notify <;>
    cases hr : env.notifyResult <;>
    simp [Except.isOk, Except.toBool] <;>
    split <;> simp_all

/-- The type-tag check never adds store calls. -/
lemma finishCommit_storeCalls (result : StoreResult) (feed : Feed)
    (wasUpdate : Bool) (calls : List Call) (fetchList logs : List String) :
    (finishCommit result feed wasUpdate calls fetchList logs).storeCalls =
      calls := by
  unfold finishCommit; split <;> rfl

/-- Notification characterization of the create branch when entered with
exactly the navigation call issued. -/
lemma createNew_notify_aux (feed : Feed) (env : Env)
    (document : NewDocument) (fetchList logs : List String) :
    ((createNew feed env document [getDocumentsCall feed] fetchList
        logs).storeCalls.any Call.isNotify = true ↔
      feed.notify = true ∧
      (createNew feed env document [getDocumentsCall feed] fetchList
        logs).storeCalls.any Call.isCreate = true ∧
      env.createResult.isOk = true) ∧
    ((createNew feed env document [getDocumentsCall feed] fetchList
        logs).storeCalls.any Call.isNotify = true →
      ∃ d, (createNew feed env document [getDocumentsCall feed] fetchList
          logs).storeCalls =
        [getDocumentsCall feed, Call.createFeedDocument d,
         Call.sendNotification feed.creator feed.name notificationText
           "feed"]) := by
  rw [createNew_storeCalls]
  by_cases hcn : env.createResult.isOk = true ∧ feed.notify = true
  · simp [hcn, Call.isNotify, Call.isCreate, getDocumentsCall, hcn.1, hcn.2]
  · rcases not_and_or.mp hcn with hc | hn
    · simp [hcn, Call.isNotify, Call.isCreate, getDocumentsCall, hc]
    · simp [hcn, Call.isNotify, Call.isCreate, getDocumentsCall, hn]

/-! ### Claim C1 -/

/-- Feed used to falsify claim C1 as stated. -/
def c1Feed : Feed :=
  { id := "F1", name := "Feed One", creator := "u1", created := 0,
    inactive := false, kind := "markdown_recursive",
    url := "https://reddit.com/r/x/p1", notify := true, origin := none }

/-- Post returned by the fetch in the C1 counterexample. -/
def c1Post : Post :=
  { title := "A", selftext := "hello", author_name := "u1",
    created_utc := 100 }

/-- Environment falsifying claim C1 as stated: creation returns without a
session error but its declared result type is not `FeedDocument`. -/
def c1Env : Env :=
  { hostnameOf := fun _ => some "reddit.com"
    getFeedDocuments := .ok []
    fetchPost := fun _ => .ok c1Post
    createResult := .ok { typename := "Wrong",
                          message := "store rejected the write" }
    updateResult := .ok { typename := "FeedDocument", message := "" }
    notifyResult := .ok { typename := "FeedDocument", message := "" }
    formatUtc := fun _ => "2024-01-01 00:00:00" }

/-- Claim C1, counterexample: with notifications enabled and a creation
response whose declared type does not match, the code still sends the
notification — the type check at line 255 runs only after the
notification call at line 245 — so the claimed "if and only if ...
including the declared result type matching" is false on the code. The
store message is logged afterwards, as the rest of the claim says. -/
theorem claim_c1_counterexample :
    (fetch_next_document c1Feed c1Env).storeCalls.any Call.isNotify =
      true ∧
    c1Env.createResult =
      Except.ok { typename := "Wrong",
                  message := "store rejected the write" } ∧
    (fetch_next_document c1Feed c1Env).logs.contains
      "SKRUNK: store rejected the write" = true := by
  exact ⟨rfl, rfl, rfl⟩

/-- Claim C1, amended: a notification is sent if and only if the feed has
notifications enabled and the `createFeedDocument` call itself succeeded
(returned without a session error); the declared-type check happens only
after the notification, so a mismatching result type does not suppress it.
The notification is never sent before the creation call, exactly once per
cycle, and never on the update path. -/
theorem claim_c1_notification_iff_create_ok (feed : Feed) (env : Env) :
    ((fetch_next_document feed env).storeCalls.any Call.isNotify = true ↔
      feed.notify = true ∧
      (fetch_next_document feed env).storeCalls.any Call.isCreate = true ∧
      env.createResult.isOk = true) ∧
    ((fetch_next_document feed env).storeCalls.any Call.isNotify = true →
      ∃ d, (fetch_next_document feed env).storeCalls =
        [getDocumentsCall feed, Call.createFeedDocument d,
         Call.sendNotification feed.creator feed.name notificationText
           "feed"]) := by
  unfold fetch_next_document
  by_cases hk : feed.kind = "markdown_recursive"
  case neg =>
    simp [hk, Call.isNotify, Call.isCreate]
  case pos =>
    simp only [hk, List.mem_singleton, if_pos]
    cases hr : resolveOrigin (env.hostnameOf feed.url) with
    | invalidUrl => simp [Call.isNotify, Call.isCreate]
    | invalidHostname => simp [Call.isNotify, Call.isCreate]
    | unresolved h => simp [Call.isNotify, Call.isCreate]
    | resolved o =>
      have ho : o = "reddit" := resolveOrigin_resolved hr
      subst ho
      unfold navigate
      simp only [hk, if_pos]
      cases hd : env.getFeedDocuments with
      | error e => simp [Call.isNotify, Call.isCreate, getDocumentsCall]
      | ok documents =>
        cases documents with
        | nil =>
          unfold commit
          simp only [if_pos rfl]
          cases hf : env.fetchPost feed.url with
          | error e => simp [Call.isNotify, Call.isCreate, getDocumentsCall]
          | ok post => exact createNew_notify_aux feed env _ _ _
        | cons doc rest =>
          cases hu : doc.url with
          | none =>
            simp [hu, Call.isNotify, Call.isCreate, getDocumentsCall]
          | some docUrl =>
            simp only [hu]
            cases hm : searchNextMarker doc.body with
            | some target =>
              simp only [hm]
              unfold commit
              simp only [if_pos rfl]
              cases hf : env.fetchPost target with
              | error e =>
                simp [Call.isNotify, Call.isCreate, getDocumentsCall]
              | ok post => exact createNew_notify_aux feed env _ _ _
            | none =>
              simp only [hm]
              unfold commit
              simp only [if_pos rfl]
              cases hf : env.fetchPost docUrl with
              | error e =>
                simp [Call.isNotify, Call.isCreate, getDocumentsCall]
              | ok post =>
                by_cases hid : doc.id = ""
                case pos =>
                  simp only [hid, if_pos rfl]
                  exact createNew_notify_aux feed env _ _ _
                case neg =>
                  simp only [if_neg hid]
                  by_cases hb : (some doc.body : Option String) =
                      some post.selftext
                  case pos =>
                    simp [hb, Call.isNotify, Call.isCreate, getDocumentsCall]
                  case neg =>
                    simp only [if_neg hb]
                    cases hup : env.updateResult with
                    | error e =>
                      simp [Call.isNotify, Call.isCreate, getDocumentsCall]
                    | ok result =>
                      simp [finishCommit_storeCalls, Call.isNotify,
                        Call.isCreate, getDocumentsCall]

/-- Feed for the C1 witness. -/
def c1wFeed : Feed :=
  { id := "F2", name := "Feed Two", creator := "u2", created := 0,
    inactive := false, kind := "markdown_recursive",
    url := "https://reddit.com/r/x/p1", notify := true, origin := none }

/-- Environment for the C1 witness: everything succeeds. -/
def c1wEnv : Env :=
  { hostnameOf := fun _ => some "reddit.com"
    getFeedDocuments := .ok []
    fetchPost := fun _ => .ok c1Post
    createResult := .ok { typename := "FeedDocument", message := "" }
    updateResult := .ok { typename := "FeedDocument", message := "" }
    notifyResult := .ok { typename := "FeedDocument", message := "" }
    formatUtc := fun _ => "2024-01-01 00:00:00" }

/-- Witness for the amended claim C1 at a concrete feed and environment. -/
theorem claim_c1_witness :
    (fetch_next_document c1wFeed c1wEnv).storeCalls.any Call.isNotify =
      true := by
  have h := claim_c1_notification_iff_create_ok c1wFeed c1wEnv
  exact h.1.mpr ⟨rfl, rfl, rfl⟩

/-! ### Claim C2 -/

/-- Characters other than the closing parenthesis are all taken by the
capture of group 1. -/
lemma takeWhile_append_paren (t : List Char) (h : ∀ c ∈ t, c ≠ ')') :
    (t ++ [')']).takeWhile (fun c => c != ')') = t := by
  induction t with
  | nil => rfl
  | cons c cs ih =>
    have hc : (c != ')') = true := by
      simpa using h c (by simp)
    simp only [List.cons_append, List.takeWhile_cons, hc, if_pos]
    rw [ih fun x hx => h x (by simp [hx])]

/-- The capture of group 1 stops exactly at the closing parenthesis. -/
lemma dropWhile_append_paren (t : List Char) (h : ∀ c ∈ t, c ≠ ')') :
    (t ++ [')']).dropWhile (fun c => c != ')') = [')'] := by
  induction t with
  | nil => rfl
  | cons c cs ih =>
    have hc : (c != ')') = true := by
      simpa using h c (by simp)
    simp only [List.cons_append, List.dropWhile_cons, hc, if_pos]
    exact ih fun x hx => h x (by simp [hx])

/-- A lower-case `[next](target)` marker is accepted, for any target with
no closing parenthesis, and the captured link target is returned. -/
lemma marker_accepts_lower (t : String) (h : ∀ c ∈ t.data, c ≠ ')') :
    searchNextMarker ("[next](" ++ t ++ ")") = some t := by
  obtain ⟨l⟩ := t
  have hdata : ("[next](" ++ String.mk l ++ ")").data =
      '[' :: 'n' :: 'e' :: 'x' :: 't' :: ']' :: '(' :: (l ++ [')']) := by
    simp [String.data_append]
  have hspan2 : (l ++ [')']).span (fun c => c != ')') = (l, [')']) := by
    rw [List.span_eq_take_drop, takeWhile_append_paren l h,
      dropWhile_append_paren l h]
  unfold searchNextMarker
  rw [hdata]
  have hm : matchMarker
      ('[' :: 'n' :: 'e' :: 'x' :: 't' :: ']' :: '(' :: (l ++ [')'])) =
      some l := by
    have step : matchMarker
        ('[' :: 'n' :: 'e' :: 'x' :: 't' :: ']' :: '(' :: (l ++ [')'])) =
        (match (l ++ [')']).span (fun c => c != ')') with
         | (target, ')' :: _) => some target
         | _ => none) := rfl
    rw [step, hspan2]
    rfl
  simp only [searchMarker, hm]

/-- A `[Next!](target)` marker — capitalized first letter, trailing
non-word punctuation before the closing bracket — is also accepted. -/
lemma marker_accepts_upper (t : String) (h : ∀ c ∈ t.data, c ≠ ')') :
    searchNextMarker ("[Next!](" ++ t ++ ")") = some t := by
  obtain ⟨l⟩ := t
  have hdata : ("[Next!](" ++ String.mk l ++ ")").data =
      '[' :: 'N' :: 'e' :: 'x' :: 't' :: '!' :: ']' :: '(' ::
        (l ++ [')']) := by
    simp [String.data_append]
  have hspan2 : (l ++ [')']).span (fun c => c != ')') = (l, [')']) := by
    rw [List.span_eq_take_drop, takeWhile_append_paren l h,
      dropWhile_append_paren l h]
  unfold searchNextMarker
  rw [hdata]
  have hm : matchMarker
      ('[' :: 'N' :: 'e' :: 'x' :: 't' :: '!' :: ']' :: '(' ::
        (l ++ [')'])) = some l := by
    have step : matchMarker
        ('[' :: 'N' :: 'e' :: 'x' :: 't' :: '!' :: ']' :: '(' ::
          (l ++ [')'])) =
        (match (l ++ [')']).span (fun c => c != ')') with
         | (target, ')' :: _) => some target
         | _ => none) := rfl
    rw [step, hspan2]
    rfl
  simp only [searchMarker, hm]

/-- Claim C2, counterexample: the regex character class `[Nn]` makes only
the FIRST letter of the marker word case-insensitive, and the literal
`ext` must be lower case, so the all-caps `[NEXT](http://x/2)` does not
match, contradicting the claim that it yields target `http://x/2`. -/
theorem claim_c2_counterexample :
    searchNextMarker "[NEXT](http://x/2)" = none ∧
    searchNextMarker "[NEXT](http://x/2)" ≠ some "http://x/2" := by
  exact ⟨rfl, by decide⟩

/-- Claim C2, amended: marker matching accepts a markdown link whose
visible text is the word next with its first letter in either case and
the remaining letters lower case, optionally followed by non-word,
non-bracket characters before the closing bracket; it rejects text where
next is followed by further word characters, and it rejects the all-caps
spelling. Both concrete accepted examples yield target `http://x/2`, and
the acceptance holds for every link target without a closing
parenthesis. -/
theorem claim_c2_marker_matching :
    (∀ t : String, (∀ c ∈ t.data, c ≠ ')') →
      searchNextMarker ("[next](" ++ t ++ ")") = some t ∧
      searchNextMarker ("[Next!](" ++ t ++ ")") = some t) ∧
    searchNextMarker "[next](http://x/2)" = some "http://x/2" ∧
    searchNextMarker "[Next!](http://x/2)" = some "http://x/2" ∧
    searchNextMarker "[NEXT](http://x/2)" = none ∧
    searchNextMarker "[nextsteps](http://x/2)" = none := by
  refine ⟨fun t h => ⟨marker_accepts_lower t h, marker_accepts_upper t h⟩,
    rfl, rfl, rfl, rfl⟩

/-- Witness for the amended claim C2: the general acceptance applied to
the concrete target `u1`. -/
theorem claim_c2_witness :
    searchNextMarker "[next](u1)" = some "u1" ∧
    searchNextMarker "[Next!](u1)" = some "u1" := by
  have h := claim_c2_marker_matching.1 "u1" (by decide)
  exact ⟨h.1, h.2⟩

/-! ### Claim C3 -/

/-- Claim C3: in update mode (a prior document exists, carries a url, has
no successor marker, and a truthy id) with the re-fetched body equal to
the stored body, the cycle issues the single read and no backing-store
write at all: no update, no creation, no notification. Running the cycle
again unchanged is again zero writes, which is the idempotence claim. -/
theorem claim_c3_update_idempotent (feed : Feed) (env : Env)
    (doc : Document) (rest : List Document) (post : Post) (u : String)
    (hkind : feed.kind = "markdown_recursive")
    (hres : resolveOrigin (env.hostnameOf feed.url) = .resolved "reddit")
    (hdocs : env.getFeedDocuments = .ok (doc :: rest))
    (hurl : doc.url = some u)
    (hmark : searchNextMarker doc.body = none)
    (hid : doc.id ≠ "")
    (hfetch : env.fetchPost u = .ok post)
    (hbody : post.selftext = doc.body) :
    (fetch_next_document feed env).storeCalls = [getDocumentsCall feed] ∧
    (fetch_next_document feed env).storeCalls.filter Call.isWrite = [] ∧
    (fetch_next_document feed env).fetches = [u] ∧
    (fetch_next_document feed env).outcome = Outcome.returned := by
  unfold fetch_next_document
  simp only [hkind, List.mem_singleton, if_pos, hres]
  unfold navigate
  simp only [hkind, if_pos, hdocs, hurl, hmark]
  unfold commit
  simp only [if_pos rfl, hfetch, if_neg hid, hbody]
  simp [Call.isWrite, getDocumentsCall]

/-- Feed for the C3 witness. -/
def c3Feed : Feed :=
  { id := "F3", name := "Feed Three", creator := "u3", created := 0,
    inactive := false, kind := "markdown_recursive",
    url := "https://reddit.com/r/x/p1", notify := true, origin := none }

/-- Stored chain head for the C3 witness: no successor marker. -/
def c3Doc : Document :=
  { id := "D3", feed := "F3", author := some "u3", posted := some 0,
    body := "stable body", body_html := "<p>stable body</p>", created := 5,
    updated := none, url := some "https://reddit.com/r/x/p1" }

/-- Re-fetched post for the C3 witness: identical body. -/
def c3Post : Post :=
  { title := "T", selftext := "stable body", author_name := "u3",
    created_utc := 7 }

/-- Environment for the C3 witness. -/
def c3Env : Env :=
  { hostnameOf := fun _ => some "www.reddit.com"
    getFeedDocuments := .ok [c3Doc]
    fetchPost := fun _ => .ok c3Post
    createResult := .ok { typename := "FeedDocument", message := "" }
    updateResult := .ok { typename := "FeedDocument", message := "" }
    notifyResult := .ok { typename := "FeedDocument", message := "" }
    formatUtc := fun _ => "1970-01-01 00:00:07" }

/-- Witness for claim C3 at a concrete feed, document and environment. -/
theorem claim_c3_witness :
    (fetch_next_document c3Feed c3Env).storeCalls.filter Call.isWrite =
      [] ∧
    (fetch_next_document c3Feed c3Env).storeCalls =
      [getDocumentsCall c3Feed] := by
  have h := claim_c3_update_idempotent c3Feed c3Env c3Doc [] c3Post
    "https://reddit.com/r/x/p1" rfl rfl rfl rfl rfl (by decide) rfl rfl
  exact ⟨h.2.1, h.1⟩

/-! ### Claim C4 -/

/-- Claim C4: when the most recent stored document carries a successor
marker, the cycle fetches exactly the captured link target, never issues
an update call, and — whenever the fetch succeeds — issues a creation
whose source url is the marker target (the create path: no existing
document id is remembered). -/
theorem claim_c4_marker_precedence (feed : Feed) (env : Env)
    (doc : Document) (rest : List Document) (u target : String)
    (hkind : feed.kind = "markdown_recursive")
    (hres : resolveOrigin (env.hostnameOf feed.url) = .resolved "reddit")
    (hdocs : env.getFeedDocuments = .ok (doc :: rest))
    (hurl : doc.url = some u)
    (hmark : searchNextMarker doc.body = some target) :
    (fetch_next_document feed env).fetches = [target] ∧
    (∀ c ∈ (fetch_next_document feed env).storeCalls,
      Call.isUpdate c = false) ∧
    (∀ post, env.fetchPost target = .ok post →
      ∃ d, d.url = target ∧
        Call.createFeedDocument d ∈
          (fetch_next_document feed env).storeCalls) := by
  unfold fetch_next_document
  simp only [hkind, List.mem_singleton, if_pos, hres]
  unfold navigate
  simp only [hkind, if_pos, hdocs, hurl, hmark]
  unfold commit
  cases hf : env.fetchPost target with
  | error e =>
    simp only [hf, if_true, eq_self_iff_true, reduceIte]
    refine ⟨trivial, ?_, ?_⟩
    · intro c hc
      simp only [List.mem_singleton] at hc
      simp [hc, getDocumentsCall, Call.isUpdate]
    · intro post hp
      simp at hp
  | ok post =>
    simp only [hf, if_true, eq_self_iff_true, reduceIte]
    refine ⟨createNew_fetches _ _ _ _ _ _, ?_, ?_⟩
    · intro c hc
      rw [createNew_storeCalls] at hc
      simp only [List.mem_append, List.mem_singleton] at hc
      rcases hc with (hc | hc) | hc
      · simp [hc, getDocumentsCall, Call.isUpdate]
      · simp [hc, Call.isUpdate]
      · split at hc <;> simp only [List.mem_singleton, List.not_mem_nil]
          at hc
        simp [hc, Call.isUpdate]
    · intro post2 hp
      refine ⟨{ feed := feed.id
                author := some post.author_name
                posted := some (env.formatUtc post.created_utc)
                body := post.selftext
                title := some post.title
                url := target }, rfl, ?_⟩
      rw [createNew_storeCalls]
      simp

/-- Feed for the C4 witness. -/
def c4Feed : Feed :=
  { id := "F4", name := "Feed Four", creator := "u4", created := 0,
    inactive := false, kind := "markdown_recursive",
    url := "https://reddit.com/r/x/p1", notify := false, origin := none }

/-- Stored chain head for the C4 witness: body carries a marker. -/
def c4Doc : Document :=
  { id := "D4", feed := "F4", author := some "u4", posted := some 0,
    body := "read [next](https://reddit.com/r/x/p2) now",
    body_html := "", created := 5, updated := none,
    url := some "https://reddit.com/r/x/p1" }

/-- Fetched successor post for the C4 witness. -/
def c4Post : Post :=
  { title := "T2", selftext := "part two", author_name := "u4",
    created_utc := 9 }

/-- Environment for the C4 witness. -/
def c4Env : Env :=
  { hostnameOf := fun _ => some "reddit.com"
    getFeedDocuments := .ok [c4Doc]
    fetchPost := fun _ => .ok c4Post
    createResult := .ok { typename := "FeedDocument", message := "" }
    updateResult := .ok { typename := "FeedDocument", message := "" }
    notifyResult := .ok { typename := "FeedDocument", message := "" }
    formatUtc := fun _ => "1970-01-01 00:00:09" }

/-- Witness for claim C4 at a concrete feed, document and environment. -/
theorem claim_c4_witness :
    (fetch_next_document c4Feed c4Env).fetches =
      ["https://reddit.com/r/x/p2"] := by
  have h := claim_c4_marker_precedence c4Feed c4Env c4Doc []
    "https://reddit.com/r/x/p1" "https://reddit.com/r/x/p2"
    rfl rfl rfl rfl rfl
  exact h.1

/-! ### Claim C5 -/

/-- Claim C5: an active feed of the recognized kind with zero prior stored
documents fetches the configured feed url and issues exactly one creation
call, whose payload carries the feed id, the fetched author, the fetched
posted timestamp, the fetched body, the fetched title and the feed url as
source url. -/
theorem claim_c5_no_prior_documents (feed : Feed) (env : Env) (post : Post)
    (hkind : feed.kind = "markdown_recursive")
    (hres : resolveOrigin (env.hostnameOf feed.url) = .resolved "reddit")
    (hdocs : env.getFeedDocuments = .ok [])
    (hfetch : env.fetchPost feed.url = .ok post) :
    (fetch_next_document feed env).fetches = [feed.url] ∧
    (fetch_next_document feed env).storeCalls.filter Call.isCreate =
      [Call.createFeedDocument
        { feed := feed.id, author := some post.author_name,
          posted := some (env.formatUtc post.created_utc),
          body := post.selftext, title := some post.title,
          url := feed.url }] := by
  unfold fetch_next_document
  simp only [hkind, List.mem_singleton, if_pos, hres]
  unfold navigate
  simp only [hkind, if_pos, hdocs]
  unfold commit
  simp only [hfetch, if_true, eq_self_iff_true, reduceIte]
  refine ⟨createNew_fetches _ _ _ _ _ _, ?_⟩
  rw [createNew_storeCalls]
  split <;> simp [Call.isCreate, getDocumentsCall]

/-- Feed for the C5 witness. -/
def c5Feed : Feed :=
  { id := "F5", name := "Feed Five", creator := "u5", created := 0,
    inactive := false, kind := "markdown_recursive",
    url := "https://reddit.com/r/x/p1", notify := true, origin := none }

/-- Fetched post for the C5 witness. -/
def c5Post : Post :=
  { title := "A", selftext := "hello", author_name := "u5",
    created_utc := 11 }

/-- Environment for the C5 witness: the store has no documents yet. -/
def c5Env : Env :=
  { hostnameOf := fun _ => some "reddit.com"
    getFeedDocuments := .ok []
    fetchPost := fun _ => .ok c5Post
    createResult := .ok { typename := "FeedDocument", message := "" }
    updateResult := .ok { typename := "FeedDocument", message := "" }
    notifyResult := .ok { typename := "FeedDocument", message := "" }
    formatUtc := fun _ => "1970-01-01 00:00:11" }

/-- Witness for claim C5 at a concrete feed and environment. -/
theorem claim_c5_witness :
    (fetch_next_document c5Feed c5Env).storeCalls.filter Call.isCreate =
      [Call.createFeedDocument
        { feed := c5Feed.id, author := some "u5",
          posted := some "1970-01-01 00:00:11", body := "hello",
          title := some "A", url := c5Feed.url }] := by
  have h := claim_c5_no_prior_documents c5Feed c5Env c5Post rfl rfl rfl rfl
  exact h.2

/-! ### Claim C6 -/

/-- A hostname whose last two dot-separated labels are not reddit/com is
reported unresolved. -/
lemma resolveOrigin_unresolved {hn : String}
    (h : pySliceLastTwo (splitDots hn.data) ≠ ["reddit", "com"]) :
    resolveOrigin (some hn) = .unresolved hn := by
  have hne := splitDots_ne_nil hn.data
  simp [resolveOrigin, h, Nat.lt_one_iff, List.length_eq_zero, hne]

/-- Claim C6: an unrecognized feed kind, an unparsable hostname, or a
hostname whose last two labels match no known origin each halt the cycle
for that feed with at least one log line, a normal return, and zero
backing-store calls of any sort — in particular no create, update or
notification call. -/
theorem claim_c6_invalid_feed_skipped (feed : Feed) (env : Env)
    (h : feed.kind ≠ "markdown_recursive" ∨
      env.hostnameOf feed.url = none ∨
      (∃ hn, env.hostnameOf feed.url = some hn ∧
        pySliceLastTwo (splitDots hn.data) ≠ ["reddit", "com"])) :
    (fetch_next_document feed env).storeCalls = [] ∧
    (fetch_next_document feed env).fetches = [] ∧
    (fetch_next_document feed env).logs ≠ [] ∧
    (fetch_next_document feed env).outcome = Outcome.returned := by
  unfold fetch_next_document
  rcases h with hk | hh | ⟨hn, hh, hlast⟩
  · rw [if_neg (by simpa using hk)]
    simp
  · by_cases hk : feed.kind ∈ ["markdown_recursive"]
    · rw [if_pos hk, hh]
      simp [resolveOrigin]
    · rw [if_neg hk]
      simp
  · by_cases hk : feed.kind ∈ ["markdown_recursive"]
    · rw [if_pos hk, hh, resolveOrigin_unresolved hlast]
      simp
    · rw [if_neg hk]
      simp

/-- Feed for the C6 witness: an unrecognized kind. -/
def c6Feed : Feed :=
  { id := "F6", name := "Feed Six", creator := "u6", created := 0,
    inactive := false, kind := "rss", url := "https://example.com/feed",
    notify := true, origin := none }

/-- Environment for the C6 witness; every store response would fail, but
the feed is rejected before any of them is consulted. -/
def c6Env : Env :=
  { hostnameOf := fun _ => some "example.com"
    getFeedDocuments := .error "unreachable"
    fetchPost := fun _ => .error "unreachable"
    createResult := .error "unreachable"
    updateResult := .error "unreachable"
    notifyResult := .error "unreachable"
    formatUtc := fun _ => "" }

/-- Witness for claim C6 at a concrete feed with an invalid kind. -/
theorem claim_c6_witness :
    (fetch_next_document c6Feed c6Env).storeCalls = [] ∧
    (fetch_next_document c6Feed c6Env).logs ≠ [] := by
  have h := claim_c6_invalid_feed_skipped c6Feed c6Env (Or.inl (by decide))
  exact ⟨h.1, h.2.2.1⟩

/-! ### Claim C7 -/

/-- The requests issued by the enumeration loop are exactly the start
indices it was given, each with the fixed batch size. -/
lemma get_feeds_loop_fst (api : FeedStore) (l : List Nat) :
    (get_feeds_loop api l).1 = l.map (fun i => (i, feed_batch_size)) := by
  induction l with
  | nil => rfl
  | cons i rest ih =>
    simp only [get_feeds_loop]
    cases h : api.getFeeds i feed_batch_size <;> simp [h, ih]

/-- Every feed yielded by the enumeration loop is active. -/
lemma get_feeds_loop_inactive (api : FeedStore) (l : List Nat) :
    ∀ f ∈ (get_feeds_loop api l).2, f.inactive = false := by
  induction l with
  | nil => simp [get_feeds_loop]
  | cons i rest ih =>
    intro f hf
    simp only [get_feeds_loop] at hf
    cases h : api.getFeeds i feed_batch_size with
    | error e =>
      rw [h] at hf
      exact ih f hf
    | ok fs =>
      rw [h] at hf
      simp only [List.mem_append, List.mem_filter] at hf
      rcases hf with ⟨_, hf2⟩ | hf
      · simpa using hf2
      · exact ih f hf

/-- An active feed of any successfully fetched batch is yielded, no
matter how other batches fare: a failing batch is skipped, not fatal. -/
lemma get_feeds_loop_mem (api : FeedStore) (l : List Nat) (i : Nat)
    (fs : List Feed) (f : Feed) (hi : i ∈ l)
    (hok : api.getFeeds i feed_batch_size = .ok fs) (hf : f ∈ fs)
    (hin : f.inactive = false) : f ∈ (get_feeds_loop api l).2 := by
  induction l with
  | nil => simp at hi
  | cons j rest ih =>
    simp only [List.mem_cons] at hi
    simp only [get_feeds_loop]
    rcases hi with hi | hi
    · subst hi
      rw [hok]
      simp only [List.mem_append]
      exact Or.inl (List.mem_filter.mpr ⟨hf, by simp [hin]⟩)
    · cases h : api.getFeeds j feed_batch_size <;> simp only []
      · exact ih hi
      · simp only [List.mem_append]
        exact Or.inr (ih hi)

/-- Claim C7: the enumeration requests batches of 20 starting at
0, 20, 40, ... covering the store-reported total (every requested start
is below the total and the requests cover at least the total); it yields
only feeds whose inactive flag is false; a failed count query yields
nothing; and every active feed of a successfully fetched requested batch
is yielded even when other batches fail. -/
theorem claim_c7_feed_enumeration (api : FeedStore) :
    (api.countFeeds.isOk = false →
      (get_feeds api).1 = [] ∧ (get_feeds api).2 = []) ∧
    (∀ f ∈ (get_feeds api).2, f.inactive = false) ∧
    (∀ total, api.countFeeds = .ok total →
      (get_feeds api).1 =
        (pyRange0 total feed_batch_size).map
          (fun i => (i, feed_batch_size)) ∧
      (∀ rq ∈ (get_feeds api).1, rq.2 = 20 ∧ rq.1 < total) ∧
      total ≤ 20 * (get_feeds api).1.length) ∧
    (∀ i fs, api.getFeeds i feed_batch_size = .ok fs →
      (i, feed_batch_size) ∈ (get_feeds api).1 →
      ∀ f ∈ fs, f.inactive = false → f ∈ (get_feeds api).2) := by
  refine ⟨?_, ?_, ?_, ?_⟩
  · intro hbad
    cases hc : api.countFeeds with
    | ok n => rw [hc] at hbad; simp [Except.isOk, Except.toBool] at hbad
    | error e =>
      unfold get_feeds
      rw [hc]
      have : pyRange0 0 feed_batch_size = [] := by
        simp [pyRange0, feed_batch_size]
      simp only [this]
      exact ⟨rfl, rfl⟩
  · exact get_feeds_loop_inactive api _
  · intro total hc
    unfold get_feeds
    rw [hc]
    refine ⟨get_feeds_loop_fst api _, ?_, ?_⟩
    · intro rq hrq
      rw [get_feeds_loop_fst] at hrq
      simp only [List.mem_map] at hrq
      obtain ⟨i, hi, rfl⟩ := hrq
      refine ⟨rfl, ?_⟩
      simp only [pyRange0, List.mem_range'] at hi
      obtain ⟨k, hk, rfl⟩ := hi
      simp only [feed_batch_size] at hk ⊢
      omega
    · rw [get_feeds_loop_fst]
      simp only [List.length_map, pyRange0, List.length_range',
        feed_batch_size]
      omega
  · intro i fs hok hmem f hf hin
    unfold get_feeds at hmem ⊢
    exact get_feeds_loop_mem api _ i fs f
      (by
        rw [get_feeds_loop_fst] at hmem
        simp only [List.mem_map] at hmem
        obtain ⟨j, hj, hj2⟩ := hmem
        obtain ⟨rfl, -⟩ := Prod.mk.injEq .. ▸ hj2
        exact hj) hok hf hin

/-- Active feed returned in the second batch of the C7 witness store. -/
def c7wFeed : Feed :=
  { id := "F7", name := "Feed Seven", creator := "u7", created := 0,
    inactive := false, kind := "markdown_recursive",
    url := "https://reddit.com/r/x/p1", notify := false, origin := none }

/-- Store for the C7 witness: 25 feeds reported, the first batch fails,
the second batch succeeds. -/
def c7Store : FeedStore :=
  { countFeeds := .ok 25
    getFeeds := fun i _ => if i = 0 then .error "boom" else .ok [c7wFeed] }

/-- Witness for claim C7: an active feed of a good batch is yielded even
though the preceding batch failed. -/
theorem claim_c7_witness : c7wFeed ∈ (get_feeds c7Store).2 := by
  have h := claim_c7_feed_enumeration c7Store
  exact h.2.2.2 20 [c7wFeed] rfl (by decide) c7wFeed
    (List.mem_singleton.mpr rfl) rfl

/-! ### Claim C8 -/

/-- Claim C8: origin resolution fails on a missing hostname, resolves to
the `reddit` tag exactly when the last two dot-separated labels of the
hostname are reddit/com, reports any other hostname unresolved, and a
single-label hostname never resolves to any origin. -/
theorem claim_c8_origin_resolution :
    resolveOrigin none = OriginResult.invalidUrl ∧
    (∀ hn : String,
      pySliceLastTwo (splitDots hn.data) = ["reddit", "com"] →
      resolveOrigin (some hn) = .resolved "reddit") ∧
    (∀ hn : String,
      pySliceLastTwo (splitDots hn.data) ≠ ["reddit", "com"] →
      resolveOrigin (some hn) = .unresolved hn) ∧
    (∀ hn : String, (splitDots hn.data).length = 1 →
      ∀ o, resolveOrigin (some hn) ≠ OriginResult.resolved o) := by
  refine ⟨rfl, ?_, ?_, ?_⟩
  · intro hn h
    have hne := splitDots_ne_nil hn.data
    simp [resolveOrigin, h, Nat.lt_one_iff, List.length_eq_zero, hne]
  · intro hn h
    exact resolveOrigin_unresolved h
  · intro hn hlen o
    have h2 : pySliceLastTwo (splitDots hn.data) ≠ ["reddit", "com"] := by
      intro hcontra
      have hl2 := congrArg List.length hcontra
      simp [pySliceLastTwo, List.length_drop, hlen] at hl2
    rw [resolveOrigin_unresolved h2]
    simp

/-- Witness for claim C8: a reddit hostname resolves, a single-label
hostname does not. -/
theorem claim_c8_witness :
    resolveOrigin (some "www.reddit.com") =
      OriginResult.resolved "reddit" ∧
    resolveOrigin (some "localhost") ≠ OriginResult.resolved "reddit" := by
  have h := claim_c8_origin_resolution
  exact ⟨h.2.1 "www.reddit.com" (by decide),
    h.2.2.2 "localhost" (by decide) "reddit"⟩

/-! ### Claim C9 -/

/-- Claim C9: when the most recent stored document has no url entry —
and the Document record type declares none — the chain-navigation read
of the source url raises a lookup error, so the cycle ends with the
exception escaping and no backing-store write issued; navigation reaches
the fetch stage only when the document carries a url entry. -/
theorem claim_c9_missing_url_key (feed : Feed) (env : Env)
    (doc : Document) (rest : List Document)
    (hkind : feed.kind = "markdown_recursive")
    (hres : resolveOrigin (env.hostnameOf feed.url) = .resolved "reddit")
    (hdocs : env.getFeedDocuments = .ok (doc :: rest))
    (hurl : doc.url = none) :
    (fetch_next_document feed env).outcome = .raised "KeyError: url" ∧
    (fetch_next_document feed env).storeCalls = [getDocumentsCall feed] ∧
    (fetch_next_document feed env).storeCalls.filter Call.isWrite = [] ∧
    (fetch_next_document feed env).fetches = [] := by
  unfold fetch_next_document
  simp only [hkind, List.mem_singleton, if_pos, hres]
  unfold navigate
  simp only [hkind, if_pos, hdocs, hurl]
  simp [Call.isWrite, getDocumentsCall]

/-- Feed for the C9 witness. -/
def c9Feed : Feed :=
  { id := "F9", name := "Feed Nine", creator := "u9", created := 0,
    inactive := false, kind := "markdown_recursive",
    url := "https://reddit.com/r/x/p1", notify := true, origin := none }

/-- Stored document for the C9 witness: no url entry, as the Document
record type itself suggests. -/
def c9Doc : Document :=
  { id := "D9", feed := "F9", author := none, posted := none,
    body := "text", body_html := "", created := 3, updated := none,
    url := none }

/-- Environment for the C9 witness. -/
def c9Env : Env :=
  { hostnameOf := fun _ => some "reddit.com"
    getFeedDocuments := .ok [c9Doc]
    fetchPost := fun _ => .error "never reached"
    createResult := .ok { typename := "FeedDocument", message := "" }
    updateResult := .ok { typename := "FeedDocument", message := "" }
    notifyResult := .ok { typename := "FeedDocument", message := "" }
    formatUtc := fun _ => "" }

/-- Witness for claim C9 at a concrete document lacking the url entry. -/
theorem claim_c9_witness :
    (fetch_next_document c9Feed c9Env).outcome =
      Outcome.raised "KeyError: url" ∧
    (fetch_next_document c9Feed c9Env).storeCalls.filter Call.isWrite =
      [] := by
  have h := claim_c9_missing_url_key c9Feed c9Env c9Doc [] rfl rfl rfl rfl
  exact ⟨h.1, h.2.2.1⟩

/-! ### Claim C10 -/

/-- Claim C10: when the most recent stored document has no successor
marker but its id is the empty string — falsy in Python — the commit
stage takes the create path: line 229 tests truthiness, not presence, so
a creation call is issued (never an update), and a notification follows
when notifications are enabled and the creation call succeeds. -/
theorem claim_c10_falsy_document_id (feed : Feed) (env : Env)
    (doc : Document) (rest : List Document) (u : String) (post : Post)
    (hkind : feed.kind = "markdown_recursive")
    (hres : resolveOrigin (env.hostnameOf feed.url) = .resolved "reddit")
    (hdocs : env.getFeedDocuments = .ok (doc :: rest))
    (hurl : doc.url = some u)
    (hmark : searchNextMarker doc.body = none)
    (hid : doc.id = "")
    (hfetch : env.fetchPost u = .ok post) :
    (fetch_next_document feed env).storeCalls.any Call.isCreate = true ∧
    (fetch_next_document feed env).storeCalls.any Call.isUpdate = false ∧
    (feed.notify = true → env.createResult.isOk = true →
      (fetch_next_document feed env).storeCalls.any Call.isNotify =
        true) := by
  unfold fetch_next_document
  simp only [hkind, List.mem_singleton, if_pos, hres]
  unfold navigate
  simp only [hkind, if_pos, hdocs, hurl, hmark]
  unfold commit
  simp only [hfetch, hid, if_true, eq_self_iff_true, reduceIte]
  rw [createNew_storeCalls]
  refine ⟨by simp [Call.isCreate], ?_, ?_⟩
  · split <;> simp [Call.isUpdate, getDocumentsCall]
  · intro hn hc
    simp [hc, hn, Call.isNotify]

/-- Feed for the C10 witness. -/
def c10Feed : Feed :=
  { id := "F10", name := "Feed Ten", creator := "u10", created := 0,
    inactive := false, kind := "markdown_recursive",
    url := "https://reddit.com/r/x/p1", notify := true, origin := none }

/-- Stored document for the C10 witness: empty-string id, no marker. -/
def c10Doc : Document :=
  { id := "", feed := "F10", author := some "u10", posted := some 0,
    body := "plain body", body_html := "", created := 4, updated := none,
    url := some "https://reddit.com/r/x/p1" }

/-- Re-fetched post for the C10 witness. -/
def c10Post : Post :=
  { title := "T", selftext := "plain body", author_name := "u10",
    created_utc := 13 }

/-- Environment for the C10 witness. -/
def c10Env : Env :=
  { hostnameOf := fun _ => some "reddit.com"
    getFeedDocuments := .ok [c10Doc]
    fetchPost := fun _ => .ok c10Post
    createResult := .ok { typename := "FeedDocument", message := "" }
    updateResult := .ok { typename := "FeedDocument", message := "" }
    notifyResult := .ok { typename := "FeedDocument", message := "" }
    formatUtc := fun _ => "1970-01-01 00:00:13" }

/-- Witness for claim C10: the empty-string id takes the create path and
even notifies. -/
theorem claim_c10_witness :
    (fetch_next_document c10Feed c10Env).storeCalls.any Call.isCreate =
      true ∧
    (fetch_next_document c10Feed c10Env).storeCalls.any Call.isNotify =
      true := by
  have h := claim_c10_falsy_document_id c10Feed c10Env c10Doc []
    "https://reddit.com/r/x/p1" c10Post rfl rfl rfl rfl rfl rfl rfl
  exact ⟨h.1, h.2.2 rfl rfl⟩

end SkrunkFeeds
